import Mathlib

/-!
Verification development for the industrial pump monitoring repository.

The repository ships two frontend dashboard implementations (the v1
`dashboard.js`, here called the V1 model, and the v2 `dashboard-improved.js`
client, here called the client model) together with design documentation of a
backend ingestion-queue / sequence-buffer / inference pipeline.  The backend
python sources (stream processor, inference engine) are not part of the
source tree; definitions for them are modelled from the specification and are
marked as such in their doc comments.  All numeric values are embedded as
rationals.
-/

namespace Pump

/-! ## V1 dashboard model (dashboard.js, first variant)

Embedded from the first dashboard implementation: the global `APP_STATE`
object, the `updateLoop` advance-and-classify step, and the per-sensor status
mapping of `updateEngineerTable`. -/

/-- System states of the v1 dashboard, per the `APP_STATE.systemState`
comment: NORMAL | WARNING | CRITICAL. -/
inductive SystemStateV1 where
  | NORMAL
  | WARNING
  | CRITICAL
deriving DecidableEq, Repr

/-- A v1 sensor reading; only the channels `updateLoop` inspects are kept
(`Vibration_mm_s` and `Bearing_Temperature_C`), the other channels do not
influence the v1 score. -/
structure ReadingV1 where
  vibration : ℚ
  bearingTemp : ℚ
deriving DecidableEq, Repr

/-- The fixed anomaly threshold of the v1 dashboard,
`mlThreshold: 0.06222164315398973`. -/
def mlThreshold : ℚ := 6222164315398973 / 100000000000000000

/-- The v1 global application state (`APP_STATE`): replay index, loaded data,
play flag, the fixed ML threshold, the last anomaly score and the derived
system state. -/
structure AppStateV1 where
  dataIndex : ℕ
  data : List ReadingV1
  isPlaying : Bool
  mlThreshold : ℚ
  lastAnomalyScore : ℚ
  systemState : SystemStateV1
deriving Repr

/-- The initial v1 `APP_STATE` literal. -/
def initAppStateV1 : AppStateV1 :=
  { dataIndex := 0
    data := []
    isPlaying := true
    mlThreshold := mlThreshold
    lastAnomalyScore := 0
    systemState := SystemStateV1.NORMAL }

/-- The v1 simulated reconstruction error:
`0.05 + Math.random() * 0.02`, plus `0.2` when vibration exceeds `4.0` and
`0.3` when bearing temperature exceeds `75`.  The random draw is made an
explicit argument `rand`. -/
def reconErrorV1 (rand : ℚ) (r : ReadingV1) : ℚ :=
  1/20 + rand * (1/50)
    + (if r.vibration > 4 then 1/5 else 0)
    + (if r.bearingTemp > 75 then 3/10 else 0)

/-- The v1 classification of the system state from the reconstruction error:
CRITICAL above `threshold + 0.3`, WARNING above `threshold`, NORMAL
otherwise. -/
def classifyV1 (err threshold : ℚ) : SystemStateV1 :=
  if err > threshold + 3/10 then SystemStateV1.CRITICAL
  else if err > threshold then SystemStateV1.WARNING
  else SystemStateV1.NORMAL

/-- One tick of the v1 `updateLoop`: when playing and data is loaded, advance
the replay index by `(dataIndex + 1) % data.length`, recompute the simulated
reconstruction error for the current record and reclassify the system
state. -/
def updateLoopV1 (s : AppStateV1) (rand : ℚ) : AppStateV1 :=
  if s.isPlaying = false ∨ s.data.length = 0 then s
  else
    let idx := (s.dataIndex + 1) % s.data.length
    let r := s.data.getD idx { vibration := 0, bearingTemp := 0 }
    let err := reconErrorV1 rand r
    { s with
      dataIndex := idx
      lastAnomalyScore := err
      systemState := classifyV1 err s.mlThreshold }

/-- Per-sensor status label of the v1 `updateEngineerTable`, computed from the
sensor's historical anomaly count: CRITICAL above 200, UNSTABLE above 100,
WATCH above 50, NORMAL otherwise. -/
def sensorStatusV1 (count : ℕ) : String :=
  if count > 200 then "CRITICAL"
  else if count > 100 then "UNSTABLE"
  else if count > 50 then "WATCH"
  else "NORMAL"

/-- The v1 `ML_STATE.sensorAnomalyCounts` literal (strict output from the ML
notebook). -/
def sensorAnomalyCountsV1 : List (String × ℕ) :=
  [("Vibration_mm_s", 450), ("Bearing_Temperature_C", 420),
   ("Motor_Current_A", 380), ("Oil_Pressure_bar", 300),
   ("Flow_Rate_L_min", 260), ("Casing_Temperature_C", 220),
   ("Discharge_Pressure_bar", 200), ("Motor_RPM", 120),
   ("Suction_Pressure_bar", 80), ("Ambient_Temperature_C", 50)]

/-! ## Risk-level derivation (`loadMLInferenceResults`)

Identical in both dashboard variants: fold the per-sensor anomaly counts into
their total and maximum, then bucket the maximum into a risk level and a
health score. -/

/-- Result of `loadMLInferenceResults`: the total anomaly count, the derived
risk level and the derived health score. -/
structure MLLoadResult where
  totalAnomalies : ℕ
  riskLevel : String
  healthScore : ℕ
deriving DecidableEq, Repr

/-- The fold of `loadMLInferenceResults` over `Object.entries`: accumulate the
running total and the running maximum (`if (count > maxCount) maxCount =
count`, starting from 0). -/
def countsFold (counts : List (String × ℕ)) : ℕ × ℕ :=
  counts.foldl (fun acc p => (acc.1 + p.2, if p.2 > acc.2 then p.2 else acc.2)) (0, 0)

/-- `loadMLInferenceResults`: derive total anomalies, risk level and health
score from the per-sensor anomaly counts (strict mapping on the maximum
count: over 200 CRITICAL/45, over 100 UNSTABLE/65, over 50 WATCH/80, else
NORMAL/98). -/
def loadMLInferenceResults (counts : List (String × ℕ)) : MLLoadResult :=
  let tm := countsFold counts
  if tm.2 > 200 then { totalAnomalies := tm.1, riskLevel := "CRITICAL", healthScore := 45 }
  else if tm.2 > 100 then { totalAnomalies := tm.1, riskLevel := "UNSTABLE", healthScore := 65 }
  else if tm.2 > 50 then { totalAnomalies := tm.1, riskLevel := "WATCH", healthScore := 80 }
  else { totalAnomalies := tm.1, riskLevel := "NORMAL", healthScore := 98 }

/-! ## Management financial attribution (v1 `updateManagementView`) -/

/-- The fixed total risk value of the v1 management view
(`TOTAL_BUDGET_RISK = 450000`). -/
def TOTAL_BUDGET_RISK : ℚ := 450000

/-- The per-sensor cost of the v1 management view:
`(count / totalAnomalies) * TOTAL_BUDGET_RISK`. -/
def sensorCost (count : ℕ) (totalAnomalies : ℚ) : ℚ :=
  ((count : ℚ) / totalAnomalies) * TOTAL_BUDGET_RISK

/-- The list of costs rendered by the v1 management view: one entry per
sensor whose anomaly count is positive (`if (count > 0)`), each assigned its
proportional share of the budget. -/
def attributedCosts (counts : List (String × ℕ)) (totalAnomalies : ℚ) : List ℚ :=
  (counts.filter (fun p => p.2 > 0)).map (fun p => sensorCost p.2 totalAnomalies)

/-! ## Shared status vocabulary

Status values exchanged between the backend, the v2 client and the external
observer.  `OFFLINE` is the value the v2 client assigns when a poll of the
read API fails; `COMPLETED` is the terminal replay status. -/

/-- System/stream status labels used by the v2 client and the backend
contract. -/
inductive Status where
  | LEARNING
  | NORMAL
  | ANOMALY
  | CRITICAL
  | COMPLETED
  | OFFLINE
deriving DecidableEq, Repr

/-! ## V2 polling client (dashboard.js, second variant: `fetchLiveStep`)

The v2 client polls `/api/live-data` on an interval.  A failed poll is the
`catch` branch; a successful poll either reports `COMPLETED` (the client
clears its interval and freezes) or carries a live record that is pushed onto
the bounded historical buffer. -/

/-- The payload of a successful `/api/live-data` poll, restricted to the
fields `fetchLiveStep` reads into client state. -/
structure LiveData where
  status : Status
  reconstructionError : ℚ
deriving DecidableEq, Repr

/-- The v2 client state: observed system state, last anomaly score, whether
the polling interval is still installed, and the length of the bounded
historical buffer (capacity 100). -/
structure ClientState where
  systemState : Status
  lastAnomalyScore : ℚ
  streamActive : Bool
  dataLen : ℕ
deriving DecidableEq, Repr

/-- One execution of the v2 `fetchLiveStep`: a failed fetch (`none`) sets the
observed state to OFFLINE; a `COMPLETED` response clears the polling interval
and freezes the state as COMPLETED; otherwise the response status and score
are copied in and the record is appended to the bounded buffer. -/
def fetchLiveStep (s : ClientState) (resp : Option LiveData) : ClientState :=
  match resp with
  | none => { s with systemState := Status.OFFLINE }
  | some d =>
    if d.status = Status.COMPLETED then
      { s with systemState := Status.COMPLETED, streamActive := false }
    else
      { s with
        systemState := d.status
        lastAnomalyScore := d.reconstructionError
        dataLen := min (s.dataLen + 1) 100 }

/-- The polling driver: the interval fires `fetchLiveStep` only while it has
not been cleared (`streamActive`). -/
def clientRun (s : ClientState) (resps : List (Option LiveData)) : ClientState :=
  resps.foldl (fun st r => if st.streamActive then fetchLiveStep st r else st) s

/-! ## Backend pipeline (modelled from the spec)

The backend sources (`stream_processor.py`, `inference_engine.py`, `app.py`)
are not in the source tree; only their documentation, database schema and
frontend callers are.  The definitions below are therefore modelled from the
specification of the ingestion queue (bounded capacity 1000, non-blocking
submit), the sequence buffer (sliding window of width 30) and the stream
processor consumer loop. -/

/-- A backend sensor reading: named numeric channels. -/
abbrev Reading : Type := List (String × ℚ)

/-- Modelled from the spec: the fixed window size of the sequence buffer
(30 timesteps). -/
def WINDOW_SIZE : ℕ := 30

/-- Modelled from the spec: `append(reading)` of the sequence buffer
(`stream_processor.py`, not in the source tree) — push the newest reading and
drop the oldest once the size exceeds 30. -/
def appendReading (b : List Reading) (r : Reading) : List Reading :=
  let b2 := b ++ [r]
  if WINDOW_SIZE < b2.length then b2.tail else b2

/-- Modelled from the spec: `is_ready()` of the sequence buffer — true iff
the buffer holds a full window of 30 readings. -/
def isReadyBuf (b : List Reading) : Bool := b.length == WINDOW_SIZE

/-- Modelled from the spec: the fixed trained parameters of the inference
adapter (`inference_engine.py`, not in the source tree): the anomaly
threshold, the reconstruction-error function of a window, and the per-channel
state policy (NORMAL / ANOMALY / CRITICAL from two escalating bounds). -/
structure InferParams where
  threshold : ℚ
  inferError : List Reading → ℚ
  channelState : String → List Reading → Status

/-- Modelled from the spec: an inference result — the aggregate reconstruction
error, the threshold used, and the anomaly decision. -/
structure InferenceResult where
  error : ℚ
  thresholdUsed : ℚ
  isAnomaly : Bool

/-- Modelled from the spec: the stream processor state — the sequence buffer,
the per-channel anomaly counters and the published system status. -/
structure ProcState where
  buffer : List Reading
  counters : List (String × ℕ)
  status : Status

/-- Modelled from the spec: the initial stream processor state (empty buffer,
zeroed counters, LEARNING). -/
def initProcState (channels : List String) : ProcState :=
  { buffer := []
    counters := channels.map (fun c => (c, 0))
    status := Status.LEARNING }

/-- Total lookup of a channel's anomaly counter (0 for an absent channel). -/
def countOf : List (String × ℕ) → String → ℕ
  | [], _ => 0
  | kv :: tl, n => if kv.1 = n then kv.2 else countOf tl n

/-- Modelled from the spec: counter update step 7 of the consumer loop —
increment the counter of every channel currently in ANOMALY or CRITICAL
state. -/
def bumpCounters (p : InferParams) (w : List Reading) (cs : List (String × ℕ)) :
    List (String × ℕ) :=
  cs.map (fun kv =>
    if p.channelState kv.1 w = Status.ANOMALY ∨ p.channelState kv.1 w = Status.CRITICAL
    then (kv.1, kv.2 + 1) else kv)

/-- Modelled from the spec: one iteration of the stream processor consumer
loop for a dequeued reading — append to the sequence buffer; if the buffer is
not yet full, stay LEARNING with no inference; otherwise run inference on the
snapshot, decide `is_anomaly = error > threshold`, bump the anomaly counters
and derive the published status. -/
def processReading (p : InferParams) (s : ProcState) (r : Reading) :
    ProcState × Option InferenceResult :=
  let b := appendReading s.buffer r
  if isReadyBuf b then
    let err := p.inferError b
    let anomalous := decide (err > p.threshold)
    let cs := bumpCounters p b s.counters
    let st := if err > p.threshold then Status.ANOMALY else Status.NORMAL
    ({ buffer := b, counters := cs, status := st },
     some { error := err, thresholdUsed := p.threshold, isAnomaly := anomalous })
  else
    ({ buffer := b, counters := s.counters, status := Status.LEARNING }, none)

/-- Modelled from the spec: the administrative counter reset — every
per-channel counter becomes exactly zero. -/
def resetCounters (s : ProcState) : ProcState :=
  { s with counters := s.counters.map (fun kv => (kv.1, 0)) }

/-- Modelled from the spec: the replay-exhaustion transition — when the finite
input source is exhausted the status becomes the terminal COMPLETED. -/
def completeReplay (s : ProcState) : ProcState :=
  { s with status := Status.COMPLETED }

/-- Run the consumer loop over a list of readings, collecting the optional
inference result of every step. -/
def runProc (p : InferParams) (s : ProcState) :
    List Reading → ProcState × List (Option InferenceResult)
  | [] => (s, [])
  | r :: rs =>
    let step := processReading p s r
    let rest := runProc p step.1 rs
    (rest.1, step.2 :: rest.2)

/-! ## Ingestion queue (modelled from the spec) -/

/-- Modelled from the spec: result of `submit` on the ingestion queue —
either accepted, or rejected with the queue-full backpressure signal. -/
inductive SubmitResult where
  | Accepted
  | RejectedQueueFull
deriving DecidableEq, Repr

/-- Modelled from the spec: the bounded capacity of the ingestion queue
(default 1000 pending items). -/
def QUEUE_CAPACITY : ℕ := 1000

/-- Modelled from the spec: `submit(reading)` on the bounded ingestion queue
(`stream_processor.py`, not in the source tree) — enqueue and accept while
below capacity, otherwise reject immediately without blocking and leave the
queue unchanged. -/
def submit (q : List Reading) (r : Reading) : SubmitResult × List Reading :=
  if q.length < QUEUE_CAPACITY then (SubmitResult.Accepted, q ++ [r])
  else (SubmitResult.RejectedQueueFull, q)

/-- Submit a batch of readings in order while the consumer is blocked (no
dequeues), collecting the per-submission results. -/
def submitAll (q : List Reading) : List Reading → List SubmitResult × List Reading
  | [] => ([], q)
  | r :: rs =>
    let step := submit q r
    let rest := submitAll step.2 rs
    (step.1 :: rest.1, rest.2)

/-! ## Theorems -/

/-- C1: after an update-loop tick the v1 system classifies the reading as
anomalous (a state other than NORMAL) exactly when the computed
reconstruction error is strictly greater than the anomaly threshold, and the
threshold field of the application state is never recomputed at runtime: the
tick preserves it, and initially it is the fixed constant `mlThreshold`. -/
theorem anomaly_iff_error_above_fixed_threshold :
    (∀ err t : ℚ, classifyV1 err t ≠ SystemStateV1.NORMAL ↔ err > t)
    ∧ (∀ (s : AppStateV1) (rand : ℚ), (updateLoopV1 s rand).mlThreshold = s.mlThreshold)
    ∧ initAppStateV1.mlThreshold = mlThreshold := by
  refine ⟨?_, ?_, rfl⟩
  · intro err t
    by_cases h1 : err > t + 3/10
    · simp only [classifyV1, if_pos h1]
      constructor
      · intro _; linarith
      · intro _; decide
    · by_cases h2 : err > t
      · simp only [classifyV1, if_neg h1, if_pos h2]
        constructor
        · intro _; exact h2
        · intro _; decide
      · simp only [classifyV1, if_neg h1, if_neg h2]
        constructor
        · intro h; exact absurd rfl h
        · intro h; exact absurd h h2
  · intro s rand
    unfold updateLoopV1
    split
    · rfl
    · rfl

/-- C4 counterexample: the v1 update loop does not terminate at the end of
the loaded dataset; from the last index of a 50-record dataset it advances by
`(dataIndex + 1) % data.length` back to index 0, replaying the input source
from the beginning. -/
theorem v1_replay_wraps_to_start :
    (updateLoopV1
      { initAppStateV1 with
        data := List.replicate 50 { vibration := 0, bearingTemp := 0 }
        dataIndex := 49 } 0).dataIndex = 0
    ∧ (List.replicate 50 ({ vibration := 0, bearingTemp := 0 } : ReadingV1)).length = 50 := by
  constructor
  · simp [updateLoopV1, initAppStateV1]
  · simp

/-- C6 counterexample: at anomaly count 120 (the count the v1 `ML_STATE`
records for Motor_RPM) the v1 engineer table produces the per-sensor label
UNSTABLE, which is outside the claimed label set
{NORMAL, ANOMALY, CRITICAL}. -/
theorem v1_sensor_label_unstable_outside_set :
    countOf sensorAnomalyCountsV1 "Motor_RPM" = 120
    ∧ sensorStatusV1 120 = "UNSTABLE"
    ∧ ¬ ("UNSTABLE" ∈ ["NORMAL", "ANOMALY", "CRITICAL"]) := by
  refine ⟨by decide, by decide, by decide⟩

/-- C6 amended: every per-sensor status label of the v1 engineer table is an
element of {NORMAL, WATCH, UNSTABLE, CRITICAL}, derived by comparing the
channel's anomaly count against three escalating bounds (50, 100, 200); no
label outside this four-element set is produced. -/
theorem v1_sensor_label_in_four_set (count : ℕ) :
    sensorStatusV1 count ∈ ["NORMAL", "WATCH", "UNSTABLE", "CRITICAL"]
    ∧ (sensorStatusV1 count = "CRITICAL" ↔ 200 < count)
    ∧ (sensorStatusV1 count = "UNSTABLE" ↔ 100 < count ∧ count ≤ 200)
    ∧ (sensorStatusV1 count = "WATCH" ↔ 50 < count ∧ count ≤ 100)
    ∧ (sensorStatusV1 count = "NORMAL" ↔ count ≤ 50) := by
  by_cases h1 : count > 200
  · have e : sensorStatusV1 count = "CRITICAL" := by simp [sensorStatusV1, h1]
    rw [e]
    exact ⟨by decide, iff_of_true rfl h1,
      iff_of_false (by decide) (by omega),
      iff_of_false (by decide) (by omega),
      iff_of_false (by decide) (by omega)⟩
  · by_cases h2 : count > 100
    · have e : sensorStatusV1 count = "UNSTABLE" := by simp [sensorStatusV1, h1, h2]
      rw [e]
      exact ⟨by decide, iff_of_false (by decide) (by omega),
        iff_of_true rfl ⟨h2, by omega⟩,
        iff_of_false (by decide) (by omega),
        iff_of_false (by decide) (by omega)⟩
    · by_cases h3 : count > 50
      · have e : sensorStatusV1 count = "WATCH" := by simp [sensorStatusV1, h1, h2, h3]
        rw [e]
        exact ⟨by decide, iff_of_false (by decide) (by omega),
          iff_of_false (by decide) (by omega),
          iff_of_true rfl ⟨h3, by omega⟩,
          iff_of_false (by decide) (by omega)⟩
      · have e : sensorStatusV1 count = "NORMAL" := by simp [sensorStatusV1, h1, h2, h3]
        rw [e]
        exact ⟨by decide, iff_of_false (by decide) (by omega),
          iff_of_false (by decide) (by omega),
          iff_of_false (by decide) (by omega),
          iff_of_true rfl (by omega)⟩

/-- The maximum per-channel anomaly count of a counters list. -/
def maxCount (counts : List (String × ℕ)) : ℕ :=
  (counts.map Prod.snd).foldr max 0

/-- The total of the per-channel anomaly counts of a counters list. -/
def sumCounts (counts : List (String × ℕ)) : ℕ :=
  (counts.map Prod.snd).sum

/-- The accumulator fold of `loadMLInferenceResults` computes the sum and the
maximum of the per-channel counts. -/
theorem countsFold_go (counts : List (String × ℕ)) (a m : ℕ) :
    counts.foldl (fun acc p => (acc.1 + p.2, if p.2 > acc.2 then p.2 else acc.2)) (a, m)
      = (a + sumCounts counts, max m (maxCount counts)) := by
  induction counts generalizing a m with
  | nil => simp [sumCounts, maxCount]
  | cons p ps ih =>
    simp only [List.foldl_cons, ih, sumCounts, maxCount, List.map_cons, List.sum_cons,
      List.foldr_cons, Prod.mk.injEq]
    constructor
    · omega
    · have e : (if p.2 > m then p.2 else m) = max m p.2 := by
        rcases le_or_lt p.2 m with h | h
        · simp [Nat.not_lt.mpr h, Nat.max_eq_left h]
        · simp [h, Nat.max_eq_right (le_of_lt h)]
      rw [e, max_assoc]

/-- The fold of `loadMLInferenceResults` equals (sum, max) of the counts. -/
theorem countsFold_eq (counts : List (String × ℕ)) :
    countsFold counts = (sumCounts counts, maxCount counts) := by
  have h := countsFold_go counts 0 0
  simpa [countsFold] using h

/-- C9: the risk-level derivation of `loadMLInferenceResults` is a pure
function of the anomaly counters: with m the maximum per-channel count, the
risk level is CRITICAL iff m > 200, UNSTABLE iff 100 < m ≤ 200, WATCH iff
50 < m ≤ 100 and NORMAL iff m ≤ 50, the health score is 45, 65, 80 and 98
respectively, and totalAnomalies is the sum of all per-channel counts. -/
theorem risk_level_strict_mapping (counts : List (String × ℕ)) :
    (loadMLInferenceResults counts).totalAnomalies = sumCounts counts
    ∧ ((loadMLInferenceResults counts).riskLevel = "CRITICAL" ↔ 200 < maxCount counts)
    ∧ ((loadMLInferenceResults counts).riskLevel = "UNSTABLE" ↔
        100 < maxCount counts ∧ maxCount counts ≤ 200)
    ∧ ((loadMLInferenceResults counts).riskLevel = "WATCH" ↔
        50 < maxCount counts ∧ maxCount counts ≤ 100)
    ∧ ((loadMLInferenceResults counts).riskLevel = "NORMAL" ↔ maxCount counts ≤ 50)
    ∧ ((loadMLInferenceResults counts).riskLevel = "CRITICAL" →
        (loadMLInferenceResults counts).healthScore = 45)
    ∧ ((loadMLInferenceResults counts).riskLevel = "UNSTABLE" →
        (loadMLInferenceResults counts).healthScore = 65)
    ∧ ((loadMLInferenceResults counts).riskLevel = "WATCH" →
        (loadMLInferenceResults counts).healthScore = 80)
    ∧ ((loadMLInferenceResults counts).riskLevel = "NORMAL" →
        (loadMLInferenceResults counts).healthScore = 98) := by
  have hres : loadMLInferenceResults counts =
      (if maxCount counts > 200 then
        { totalAnomalies := sumCounts counts, riskLevel := "CRITICAL", healthScore := 45 }
      else if maxCount counts > 100 then
        { totalAnomalies := sumCounts counts, riskLevel := "UNSTABLE", healthScore := 65 }
      else if maxCount counts > 50 then
        { totalAnomalies := sumCounts counts, riskLevel := "WATCH", healthScore := 80 }
      else
        { totalAnomalies := sumCounts counts, riskLevel := "NORMAL", healthScore := 98 }) := by
    simp [loadMLInferenceResults, countsFold_eq]
  rw [hres]
  by_cases h1 : maxCount counts > 200
  · rw [if_pos h1]
    refine ⟨rfl, by simp [h1], by simp; omega, by simp; omega, by simp; omega,
      fun _ => rfl, ?_, ?_, ?_⟩
    all_goals intro h; simp at h
  · by_cases h2 : maxCount counts > 100
    · rw [if_neg h1, if_pos h2]
      refine ⟨rfl, by simp; omega, by simp; omega, by simp; omega, by simp; omega,
      ?_, fun _ => rfl, ?_, ?_⟩
      all_goals intro h; simp at h
    · by_cases h3 : maxCount counts > 50
      · rw [if_neg h1, if_neg h2, if_pos h3]
        refine ⟨rfl, by simp; omega, by simp; omega, by simp; omega, by simp; omega,
        ?_, ?_, fun _ => rfl, ?_⟩
        all_goals intro h; simp at h
      · rw [if_neg h1, if_neg h2, if_neg h3]
        refine ⟨rfl, by simp; omega, by simp; omega, by simp; omega, by simp; omega,
        ?_, ?_, ?_, fun _ => rfl⟩
        all_goals intro h; simp at h

/-- Witness for C9: on the v1 anomaly counts (maximum 450, sum 2480) the
derivation yields risk level CRITICAL, health score 45 and total 2480. -/
theorem risk_level_strict_mapping_witness :
    (loadMLInferenceResults sensorAnomalyCountsV1).riskLevel = "CRITICAL"
    ∧ (loadMLInferenceResults sensorAnomalyCountsV1).healthScore = 45
    ∧ (loadMLInferenceResults sensorAnomalyCountsV1).totalAnomalies = 2480 := by
  have h := risk_level_strict_mapping sensorAnomalyCountsV1
  refine ⟨(h.2.1).mpr (by decide), ?_, h.1.trans (by decide)⟩
  exact h.2.2.2.2.2.1 ((h.2.1).mpr (by decide))

/-- The attributed costs of the management view sum to `(sum of counts) /
totalAnomalies` times the budget: dropping the zero-count sensors does not
change the sum, and the proportional shares factor. -/
theorem attributedCosts_sum_eq (counts : List (String × ℕ)) (t : ℚ) :
    (attributedCosts counts t).sum
      = (((counts.map (fun p => (p.2 : ℚ))).sum) / t) * TOTAL_BUDGET_RISK := by
  induction counts with
  | nil => simp [attributedCosts]
  | cons p ps ih =>
    by_cases h : p.2 > 0
    · have e : attributedCosts (p :: ps) t = sensorCost p.2 t :: attributedCosts ps t := by
        simp [attributedCosts, h]
      rw [e, List.sum_cons, ih]
      simp only [List.map_cons, List.sum_cons, sensorCost]
      rw [add_div, add_mul]
    · have hz : p.2 = 0 := by omega
      have e : attributedCosts (p :: ps) t = attributedCosts ps t := by
        simp [attributedCosts, h]
      rw [e, ih]
      simp [hz]

/-- C10: in the management view's financial attribution each sensor with a
positive anomaly count is assigned `(count / totalAnomalies) * 450000`;
whenever `totalAnomalies` equals the sum of the per-sensor counts and is
positive, the assigned costs sum exactly to the fixed total budget of
450000. -/
theorem management_costs_sum_to_budget (counts : List (String × ℕ))
    (hpos : 0 < (counts.map (fun p => (p.2 : ℚ))).sum) :
    (attributedCosts counts ((counts.map (fun p => (p.2 : ℚ))).sum)).sum
      = TOTAL_BUDGET_RISK := by
  rw [attributedCosts_sum_eq]
  rw [div_self (ne_of_gt hpos), one_mul]

/-- Witness for C10: on the v1 anomaly counts (total 2480) the attributed
costs sum exactly to the 450000 budget. -/
theorem management_costs_sum_witness :
    0 < ((sensorAnomalyCountsV1.map (fun p => (p.2 : ℚ))).sum)
    ∧ (attributedCosts sensorAnomalyCountsV1
        ((sensorAnomalyCountsV1.map (fun p => (p.2 : ℚ))).sum)).sum = TOTAL_BUDGET_RISK := by
  have hpos : 0 < ((sensorAnomalyCountsV1.map (fun p => (p.2 : ℚ))).sum) := by
    norm_num [sensorAnomalyCountsV1]
  exact ⟨hpos, management_costs_sum_to_budget sensorAnomalyCountsV1 hpos⟩

/-- A polling driver whose interval has been cleared never changes the client
state again. -/
theorem clientRun_inactive (s : ClientState) (h : s.streamActive = false)
    (resps : List (Option LiveData)) : clientRun s resps = s := by
  induction resps with
  | nil => rfl
  | cons r rs ih =>
    simp only [clientRun, List.foldl_cons, h, Bool.false_eq_true, if_false]
    exact ih

/-- C4 amended: in the v2 client, a poll reporting COMPLETED (the backend's
replay-exhaustion signal) moves the observed state to the terminal COMPLETED,
clears the polling interval, and every later interval firing leaves the
client state untouched — the client never advances again, and in particular
never replays the input source.  (The v1 dashboard instead wraps its replay
index modulo the dataset length; see the counterexample.) -/
theorem v2_completion_is_terminal (s : ClientState) (d : LiveData)
    (h : d.status = Status.COMPLETED) (resps : List (Option LiveData)) :
    (fetchLiveStep s (some d)).systemState = Status.COMPLETED
    ∧ (fetchLiveStep s (some d)).streamActive = false
    ∧ clientRun (fetchLiveStep s (some d)) resps = fetchLiveStep s (some d) := by
  have e : fetchLiveStep s (some d) =
      { s with systemState := Status.COMPLETED, streamActive := false } := by
    simp [fetchLiveStep, h]
  refine ⟨by rw [e], by rw [e], ?_⟩
  rw [e]
  exact clientRun_inactive _ rfl resps

/-- Witness for C4: a concrete client in live NORMAL state receiving a
COMPLETED poll freezes in COMPLETED and ignores two further poll firings. -/
theorem v2_completion_is_terminal_witness :
    (fetchLiveStep
        { systemState := Status.NORMAL, lastAnomalyScore := 0,
          streamActive := true, dataLen := 40 }
        (some { status := Status.COMPLETED, reconstructionError := 1/25 })).systemState
      = Status.COMPLETED
    ∧ (fetchLiveStep
        { systemState := Status.NORMAL, lastAnomalyScore := 0,
          streamActive := true, dataLen := 40 }
        (some { status := Status.COMPLETED, reconstructionError := 1/25 })).streamActive
      = false
    ∧ clientRun
        (fetchLiveStep
          { systemState := Status.NORMAL, lastAnomalyScore := 0,
            streamActive := true, dataLen := 40 }
          (some { status := Status.COMPLETED, reconstructionError := 1/25 }))
        [none, some { status := Status.NORMAL, reconstructionError := 0 }]
      = fetchLiveStep
          { systemState := Status.NORMAL, lastAnomalyScore := 0,
            streamActive := true, dataLen := 40 }
          (some { status := Status.COMPLETED, reconstructionError := 1/25 }) :=
  v2_completion_is_terminal _ _ rfl _

/-- C8: the OFFLINE state is produced only by the external polling client —
a failed poll of the read API sets the observed system state to OFFLINE —
while no step of the stream processor state machine (a consumer-loop
iteration, the replay-exhaustion transition or the counter reset) ever
publishes OFFLINE. -/
theorem offline_only_from_failed_poll :
    (∀ s : ClientState, (fetchLiveStep s none).systemState = Status.OFFLINE)
    ∧ (∀ (p : InferParams) (s : ProcState) (r : Reading),
        (processReading p s r).1.status ≠ Status.OFFLINE)
    ∧ (∀ s : ProcState, (completeReplay s).status = Status.COMPLETED)
    ∧ (∀ s : ProcState, (resetCounters s).status = s.status) := by
  refine ⟨fun s => rfl, ?_, fun s => rfl, fun s => rfl⟩
  intro p s r
  by_cases hb : isReadyBuf (appendReading s.buffer r) = true
  · by_cases he : p.inferError (appendReading s.buffer r) > p.threshold
    · simp [processReading, hb, he]
    · simp [processReading, hb, he]
  · simp [processReading, hb]

/-- A concrete inference-parameter fixture used by witnesses: threshold 1/20,
reconstruction error the window length over 100, every channel NORMAL. -/
def demoParams : InferParams :=
  { threshold := 1/20
    inferError := fun w => (w.length : ℚ) / 100
    channelState := fun _ _ => Status.NORMAL }

/-- Witness for C8: a concrete failed poll reports OFFLINE, and a concrete
consumer-loop step does not publish OFFLINE. -/
theorem offline_only_from_failed_poll_witness :
    (fetchLiveStep
      { systemState := Status.NORMAL, lastAnomalyScore := 0,
        streamActive := true, dataLen := 0 } none).systemState = Status.OFFLINE
    ∧ (processReading demoParams
        { buffer := [], counters := [("Vibration_mm_s", 0)],
          status := Status.LEARNING } []).1.status ≠ Status.OFFLINE :=
  ⟨offline_only_from_failed_poll.1 _, offline_only_from_failed_poll.2.1 demoParams _ _⟩

/-- C2: the reconstruction error produced by a consumer-loop step is a pure
function of the window snapshot (and the fixed trained parameters): two
states agreeing on the sequence buffer yield identical inference output for
the same incoming reading, whatever their other (hidden) state components
are; in particular two evaluations on an identical window snapshot return
the identical reconstruction error. -/
theorem inference_error_pure_in_window (p : InferParams) (s1 s2 : ProcState)
    (r : Reading) (h : s1.buffer = s2.buffer) :
    ((processReading p s1 r).2.map (fun o => o.error))
      = ((processReading p s2 r).2.map (fun o => o.error)) := by
  simp only [processReading, h]
  split
  · rfl
  · rfl

/-- Witness for C2: two concrete states with the same (empty) buffer but
different counters and status produce the same inference output. -/
theorem inference_error_pure_in_window_witness :
    ((processReading demoParams
        { buffer := [], counters := [("Vibration_mm_s", 5)],
          status := Status.NORMAL } []).2.map (fun o => o.error))
      = ((processReading demoParams
          { buffer := [], counters := [], status := Status.CRITICAL } []).2.map
            (fun o => o.error)) :=
  inference_error_pure_in_window demoParams _ _ [] rfl

/-- The sequence-buffer append of a buffer holding at most a full window
yields `min (length + 1) 30` readings: it grows by one until the window is
full and then evicts exactly the oldest reading. -/
theorem appendReading_length (b : List Reading) (r : Reading) (hb : b.length ≤ 30) :
    (appendReading b r).length = min (b.length + 1) 30 := by
  simp only [appendReading, WINDOW_SIZE]
  by_cases h : 30 < (b ++ [r]).length
  · rw [if_pos h]
    simp only [List.length_tail, List.length_append, List.length_singleton] at h ⊢
    omega
  · rw [if_neg h]
    simp only [List.length_append, List.length_singleton] at h ⊢
    omega

/-- A consumer-loop step always stores the appended buffer. -/
theorem processReading_buffer (p : InferParams) (s : ProcState) (r : Reading) :
    (processReading p s r).1.buffer = appendReading s.buffer r := by
  by_cases hb : isReadyBuf (appendReading s.buffer r) = true
  · simp [processReading, hb]
  · simp [processReading, hb]

/-- Running the consumer loop from a buffer of at most a full window leaves
`min (initial + consumed) 30` readings in the buffer. -/
theorem runProc_buffer_length (p : InferParams) (rs : List Reading) :
    ∀ s : ProcState, s.buffer.length ≤ 30 →
      (runProc p s rs).1.buffer.length = min (s.buffer.length + rs.length) 30 := by
  induction rs with
  | nil =>
    intro s h
    simp only [runProc, List.length_nil]
    omega
  | cons r rs ih =>
    intro s h
    have hlen : (processReading p s r).1.buffer.length = min (s.buffer.length + 1) 30 := by
      rw [processReading_buffer, appendReading_length _ _ h]
    have h30 : (processReading p s r).1.buffer.length ≤ 30 := by omega
    show (runProc p (processReading p s r).1 rs).1.buffer.length = _
    rw [ih _ h30, hlen]
    simp only [List.length_cons]
    omega

/-- While the window is not yet full, every consumer-loop step stays in
LEARNING and produces no inference result. -/
theorem runProc_learning (p : InferParams) (rs : List Reading) :
    ∀ s : ProcState, s.buffer.length + rs.length ≤ 29 → s.status = Status.LEARNING →
      (runProc p s rs).1.status = Status.LEARNING
      ∧ ∀ o ∈ (runProc p s rs).2, o = none := by
  induction rs with
  | nil =>
    intro s _ hst
    exact ⟨hst, by simp [runProc]⟩
  | cons r rs ih =>
    intro s h hst
    simp only [List.length_cons] at h
    have hlen : (appendReading s.buffer r).length = min (s.buffer.length + 1) 30 :=
      appendReading_length _ _ (by omega)
    have hb : isReadyBuf (appendReading s.buffer r) = false := by
      simp only [isReadyBuf, WINDOW_SIZE, beq_eq_false_iff_ne, ne_eq, hlen]
      omega
    have hstep : processReading p s r =
        ({ buffer := appendReading s.buffer r, counters := s.counters,
           status := Status.LEARNING }, none) := by
      simp [processReading, hb]
    have h2 : (processReading p s r).1.buffer.length + rs.length ≤ 29 := by
      rw [hstep]
      show (appendReading s.buffer r).length + rs.length ≤ 29
      rw [hlen]
      omega
    have h3 : (processReading p s r).1.status = Status.LEARNING := by rw [hstep]
    obtain ⟨hstat, hnone⟩ := ih (processReading p s r).1 h2 h3
    refine ⟨hstat, ?_⟩
    intro o ho
    simp only [runProc, List.mem_cons] at ho
    rcases ho with ho | ho
    · rw [ho, hstep]
    · exact hnone o ho

/-- C3: running the stream processor from a fresh buffer over 29 or fewer
readings never finds the buffer ready, stays in LEARNING and attempts no
inference; the window length never exceeds 30; and a consumer-loop step
attempts inference exactly when the buffer it just assembled holds exactly 30
readings. -/
theorem learning_until_window_full (p : InferParams) (channels : List String)
    (rs : List Reading) :
    (rs.length ≤ 29 →
      isReadyBuf (runProc p (initProcState channels) rs).1.buffer = false
      ∧ (runProc p (initProcState channels) rs).1.status = Status.LEARNING
      ∧ ∀ o ∈ (runProc p (initProcState channels) rs).2, o = none)
    ∧ (runProc p (initProcState channels) rs).1.buffer.length ≤ 30
    ∧ ∀ (s : ProcState) (r : Reading),
        ((processReading p s r).2.isSome = true ↔
          (appendReading s.buffer r).length = 30) := by
  have hinit : (initProcState channels).buffer.length = 0 := rfl
  refine ⟨?_, ?_, ?_⟩
  · intro hle
    have hlearn := runProc_learning p rs (initProcState channels) (by omega) rfl
    have hlen := runProc_buffer_length p rs (initProcState channels) (by omega)
    refine ⟨?_, hlearn.1, hlearn.2⟩
    rw [isReadyBuf, hlen]
    simp only [WINDOW_SIZE, beq_eq_false_iff_ne, ne_eq, hinit]
    omega
  · have hlen := runProc_buffer_length p rs (initProcState channels) (by omega)
    rw [hlen]
    omega
  · intro s r
    by_cases hb : isReadyBuf (appendReading s.buffer r) = true
    · have e : (processReading p s r).2.isSome = true := by simp [processReading, hb]
      rw [e]
      simp only [isReadyBuf, WINDOW_SIZE, beq_iff_eq] at hb
      exact iff_of_true rfl hb
    · have e : (processReading p s r).2.isSome = false := by simp [processReading, hb]
      rw [e]
      simp only [isReadyBuf, WINDOW_SIZE, beq_iff_eq] at hb
      exact iff_of_false (by decide) hb

/-- Witness for C3: a five-reading run from a fresh buffer is still LEARNING
with an unready buffer. -/
theorem learning_until_window_full_witness :
    (List.replicate 5 ([] : Reading)).length ≤ 29
    ∧ isReadyBuf (runProc demoParams (initProcState ["Vibration_mm_s"])
        (List.replicate 5 [])).1.buffer = false
    ∧ (runProc demoParams (initProcState ["Vibration_mm_s"])
        (List.replicate 5 [])).1.status = Status.LEARNING :=
  ⟨by decide,
   ((learning_until_window_full demoParams ["Vibration_mm_s"]
      (List.replicate 5 [])).1 (by decide)).1,
   ((learning_until_window_full demoParams ["Vibration_mm_s"]
      (List.replicate 5 [])).1 (by decide)).2.1⟩

/-- Bumping the anomaly counters never decreases any channel's count. -/
theorem countOf_bump (p : InferParams) (w : List Reading)
    (cs : List (String × ℕ)) (n : String) :
    countOf cs n ≤ countOf (bumpCounters p w cs) n := by
  induction cs with
  | nil => simp [bumpCounters, countOf]
  | cons kv tl ih =>
    simp only [bumpCounters, List.map_cons] at ih ⊢
    by_cases hc : p.channelState kv.1 w = Status.ANOMALY
        ∨ p.channelState kv.1 w = Status.CRITICAL
    · rw [if_pos hc]
      simp only [countOf]
      by_cases hk : kv.1 = n
      · simp only [if_pos hk]
        omega
      · simp only [if_neg hk]
        exact ih
    · rw [if_neg hc]
      simp only [countOf]
      by_cases hk : kv.1 = n
      · simp only [if_pos hk]
        exact le_rfl
      · simp only [if_neg hk]
        exact ih

/-- After the administrative reset every channel's counter reads zero. -/
theorem countOf_zeroed (cs : List (String × ℕ)) (n : String) :
    countOf (cs.map (fun kv => (kv.1, 0))) n = 0 := by
  induction cs with
  | nil => rfl
  | cons kv tl ih =>
    by_cases hk : kv.1 = n
    · simp [countOf, hk]
    · simp only [List.map_cons, countOf, if_neg hk]
      exact ih

/-- C5: every consumer-loop step leaves each channel's anomaly counter
unchanged or increases it (the counters are monotonically non-decreasing
across the session), and the explicit administrative reset is the operation
after which every counter is exactly zero. -/
theorem counters_monotone_and_reset_zero :
    (∀ (p : InferParams) (s : ProcState) (r : Reading) (n : String),
      countOf s.counters n ≤ countOf (processReading p s r).1.counters n)
    ∧ (∀ (s : ProcState) (n : String), countOf (resetCounters s).counters n = 0) := by
  constructor
  · intro p s r n
    by_cases hb : isReadyBuf (appendReading s.buffer r) = true
    · have e : (processReading p s r).1.counters
          = bumpCounters p (appendReading s.buffer r) s.counters := by
        simp [processReading, hb]
      rw [e]
      exact countOf_bump p _ s.counters n
    · have e : (processReading p s r).1.counters = s.counters := by
        simp [processReading, hb]
      rw [e]
  · intro s n
    exact countOf_zeroed s.counters n

/-- With the queue already at capacity, every further submission is
rejected. -/
theorem submitAll_all_rejected (rs : List Reading) :
    ∀ q : List Reading, ¬ q.length < QUEUE_CAPACITY →
      (submitAll q rs).1 = List.replicate rs.length SubmitResult.RejectedQueueFull := by
  induction rs with
  | nil => intro q _; rfl
  | cons r rs ih =>
    intro q h
    have hstep : submit q r = (SubmitResult.RejectedQueueFull, q) := by
      simp [submit, h]
    have e : (submitAll q (r :: rs)).1
        = SubmitResult.RejectedQueueFull :: (submitAll q rs).1 := by
      simp [submitAll, hstep]
    rw [e, ih q h, List.length_cons, List.replicate_succ]

/-- Submitting a batch into a queue with free capacity accepts exactly up to
the remaining capacity and rejects the rest, in order. -/
theorem submitAll_results (rs : List Reading) :
    ∀ q : List Reading, q.length ≤ QUEUE_CAPACITY →
      (submitAll q rs).1
        = List.replicate (min rs.length (QUEUE_CAPACITY - q.length))
            SubmitResult.Accepted
          ++ List.replicate (rs.length - (QUEUE_CAPACITY - q.length))
              SubmitResult.RejectedQueueFull := by
  induction rs with
  | nil => intro q _; simp [submitAll]
  | cons r rs ih =>
    intro q h
    by_cases hq : q.length < QUEUE_CAPACITY
    · have hstep : submit q r = (SubmitResult.Accepted, q ++ [r]) := by
        simp [submit, hq]
      have hlen : (q ++ [r]).length ≤ QUEUE_CAPACITY := by
        simp only [List.length_append, List.length_singleton]
        omega
      have e : (submitAll q (r :: rs)).1
          = SubmitResult.Accepted :: (submitAll (q ++ [r]) rs).1 := by
        simp [submitAll, hstep]
      rw [e, ih _ hlen]
      have e1 : QUEUE_CAPACITY - (q ++ [r]).length = QUEUE_CAPACITY - q.length - 1 := by
        simp only [List.length_append, List.length_singleton]
        omega
      rw [e1, List.length_cons]
      have e2 : min (rs.length + 1) (QUEUE_CAPACITY - q.length)
          = min rs.length (QUEUE_CAPACITY - q.length - 1) + 1 := by omega
      have e3 : rs.length + 1 - (QUEUE_CAPACITY - q.length)
          = rs.length - (QUEUE_CAPACITY - q.length - 1) := by omega
      rw [e2, e3, List.replicate_succ, List.cons_append]
    · have e : (submitAll q (r :: rs)).1
          = SubmitResult.RejectedQueueFull :: (submitAll q rs).1 := by
        simp [submitAll, submit, hq]
      rw [e, submitAll_all_rejected rs q hq, List.length_cons]
      have hq0 : QUEUE_CAPACITY - q.length = 0 := by omega
      rw [hq0]
      simp [List.replicate_succ]

/-- C7: with the consumer blocked and the 1000-capacity ingestion queue
initially empty, submitting 1001 readings yields Accepted for the first 1000
and Rejected(QueueFull) for exactly the 1001st; moreover a submission to a
full queue returns the rejection to the caller immediately (the total
function never blocks) and leaves the queue unchanged, so a rejected reading
is observable rather than silently lost. -/
theorem queue_rejects_exactly_overflow (rs : List Reading) (h : rs.length = 1001) :
    (submitAll [] rs).1
      = List.replicate 1000 SubmitResult.Accepted ++ [SubmitResult.RejectedQueueFull]
    ∧ (∀ (q : List Reading) (r : Reading), ¬ q.length < QUEUE_CAPACITY →
        submit q r = (SubmitResult.RejectedQueueFull, q)) := by
  constructor
  · have e := submitAll_results rs [] (by simp [QUEUE_CAPACITY])
    rw [e, h]
    norm_num [QUEUE_CAPACITY]
  · intro q r hq
    simp [submit, hq]

/-- Witness for C7: a concrete batch of 1001 readings against the empty
queue produces 1000 acceptances followed by one rejection. -/
theorem queue_rejects_exactly_overflow_witness :
    (List.replicate 1001 ([] : Reading)).length = 1001
    ∧ (submitAll [] (List.replicate 1001 ([] : Reading))).1
        = List.replicate 1000 SubmitResult.Accepted
          ++ [SubmitResult.RejectedQueueFull] :=
  ⟨by rw [List.length_replicate],
   (queue_rejects_exactly_overflow (List.replicate 1001 [])
     (by rw [List.length_replicate])).1⟩

end Pump
